import Mathlib

/-!
# Smart-Task-Planner: verification of the fallback plan generator

Shallow embedding of the plan-generation core of `app.py` (class
`LLMTaskPlanner`): the timeframe extractor, the keyword classifier, the
rule-based fallback plan generator, the Ollama adapter's fallback contract
and the create-plan endpoint's input validation.

Modelling conventions:
* Calendar dates are represented by their proleptic-Gregorian ordinal
  (Python `date.toordinal()`), a `Nat`.  `datetime.now()` becomes an
  arbitrary parameter `start : Nat`; `start_date + timedelta(days=k)`
  becomes `start + k`.  The `strftime("%Y-%m-%d")` serialization is
  injective on the representable range, so dates are compared as ordinals.
* Python strings are handled as `List Char` after `str.lower()`.
* `int(total_days * c)` for the literal float constants `c` in the source
  is modelled by exact rational truncation (e.g. `6 * d / 10` for
  `int(d*0.6)`).  For every constant except `0.7` the two agree on all
  inputs in the representable date range; for `0.7` the float value is at
  most one below the rational floor (first at `d = 90`).  No theorem in
  this file depends on the exact value of that one offset: every statement
  about it uses bounds valid for both values.
* Free-text fields that no claim mentions (`title`, `description`, the
  Learning family's interpolated subject) are omitted from the `Task`
  record; all other fields are kept.
-/

namespace SmartTaskPlanner

/-! ## Data model (§3 of the design: Task, Milestone, Timeline, Plan) -/

/-- A task record as built by `fallback_plan_generation` (free-text
`title`/`description` omitted, see the module docstring). -/
structure Task where
  id : Nat
  estimated_hours : Nat
  dependencies : List Nat
  deadline : Nat
  priority : String
  category : String
deriving DecidableEq, Repr

/-- A milestone record: `name`, calendar `date` (ordinal), and the ids of
the tasks considered complete by that date. -/
structure Milestone where
  name : String
  date : Nat
  tasks_completed : List Nat
deriving DecidableEq, Repr

/-- The plan `timeline` object: start and end ordinals plus milestones. -/
structure Timeline where
  start_date : Nat
  end_date : Nat
  milestones : List Milestone
deriving DecidableEq, Repr

/-- The generated plan object. -/
structure Plan where
  goal : String
  estimated_duration : String
  tasks : List Task
  timeline : Timeline
deriving DecidableEq, Repr

/-! ## String helpers shared by the extractor and the classifier -/

/-- Python `str.lower()` restricted to per-character lowering. -/
def lowerChars (s : String) : List Char :=
  s.data.map Char.toLower

/-- Characters matched by Python's `\s` (ASCII part) and stripped by
`str.strip()`. -/
def isPySpace (c : Char) : Bool :=
  c == ' ' || c == '\t' || c == '\n' || c == '\r' || c == '\x0b' || c == '\x0c'

/-- Python `needle in hay` on strings: contiguous-substring test. -/
def strContains (hay needle : List Char) : Bool :=
  match hay with
  | [] => needle.isEmpty
  | _ :: t => needle.isPrefixOf hay || strContains t needle

/-- `any(word in goal_lower for word in kws)`. -/
def containsAny (hay : List Char) (kws : List (List Char)) : Bool :=
  kws.any (fun kw => strContains hay kw)

/-- Numeric value of a digit run (`int(match.group(1))`). -/
def digitsToNat (ds : List Char) : Nat :=
  ds.foldl (fun a c => a * 10 + (c.toNat - 48)) 0

/-! ## Timeframe Extractor (`extract_timeframe`, app.py lines 198–211)

`re.search(r'(\d+)\s*weeks?', goal.lower())` and its two siblings differ
only in the literal word, so the matcher is defined once: scan positions
left to right; at a position starting with a digit the greedy `\d+` takes
the whole digit run (a shorter take would leave a digit where `\s` or the
word's first letter is required, so the regex backtracking is vacuous),
then `\s*` takes the whitespace run, then the literal word must follow
(`s?` always matches, so only the stem is checked).  The captured group is
the digit run. -/

/-- Leftmost match of `(\d+)\s*word`: returns the captured number. -/
def findNumWord (word : List Char) : List Char → Option Nat
  | [] => none
  | c :: rest =>
    if c.isDigit then
      let ds := (c :: rest).takeWhile Char.isDigit
      let after := ((c :: rest).dropWhile Char.isDigit).dropWhile isPySpace
      if word.isPrefixOf after then some (digitsToNat ds)
      else findNumWord word rest
    else findNumWord word rest

/-- The `time_patterns` table of `extract_timeframe`: stem and converter,
in source order (weeks, days, months). -/
def time_patterns : List (List Char × (Nat → Nat)) :=
  [("week".data, fun n => n * 7),
   ("day".data, fun n => n),
   ("month".data, fun n => n * 30)]

/-- The `for pattern, converter in time_patterns` loop: first match wins,
default 14. -/
def firstPatternMatch : List (List Char × (Nat → Nat)) → List Char → Nat
  | [], _ => 14
  | (w, conv) :: ps, gl =>
    match findNumWord w gl with
    | some n => conv n
    | none => firstPatternMatch ps gl

/-- `extract_timeframe(goal)`: duration in days hinted by the goal text. -/
def extract_timeframe (goal : String) : Nat :=
  firstPatternMatch time_patterns (lowerChars goal)

/-! ## Pattern Classifier (the `if/elif` chain of
`fallback_plan_generation`, app.py lines 235, 320, 385, 436, 491) -/

/-- The five template families, in source test order. -/
inductive Family where
  | product
  | event
  | learning
  | research
  | generic
deriving DecidableEq, Repr

def product_keywords : List (List Char) :=
  ["product", "launch", "app", "software", "platform", "mobile"].map String.data

def event_keywords : List (List Char) :=
  ["event", "meeting", "conference", "workshop", "party", "gathering"].map String.data

def learning_keywords : List (List Char) :=
  ["learn", "study", "course", "training", "skill", "master"].map String.data

def research_keywords : List (List Char) :=
  ["research", "paper", "thesis", "study", "analysis", "report"].map String.data

/-- Template-family selection: keyword containment tested on the
lower-cased goal, in the fixed source priority order. -/
def classify (goal : String) : Family :=
  let gl := lowerChars goal
  if containsAny gl product_keywords then .product
  else if containsAny gl event_keywords then .event
  else if containsAny gl learning_keywords then .learning
  else if containsAny gl research_keywords then .research
  else .generic

/-! ## Plan Synthesizer (`fallback_plan_generation`, app.py lines 224–588)

The source builds the task list inline in each `if/elif` branch; here the
branch bodies are collected in `fallback_tasks`, selected by `classify`
(the same conditions, in the same order).  Deadlines are stored as
ordinals `start + offset`; `d` is `total_days`.  `int(d*0.6)` etc. are the
rational truncations discussed in the module docstring; `d//7` etc. are
`Nat` division exactly as in the source. -/

/-- The per-family task templates of `fallback_plan_generation`
(fields: id, estimated_hours, dependencies, deadline, priority,
category). -/
def fallback_tasks (start d : Nat) (fam : Family) : List Task :=
  match fam with
  | .product =>
    [⟨1, 16, [], start + max 1 (d / 7), "High", "Research"⟩,
     ⟨2, 20, [1], start + max 2 (d / 5), "High", "Planning"⟩,
     ⟨3, 32, [2], start + max 4 (d / 3), "High", "Design"⟩,
     ⟨4, 40, [2], start + max 7 (6 * d / 10), "High", "Development"⟩,
     ⟨5, 48, [3, 4], start + max 10 (7 * d / 10), "High", "Development"⟩,
     ⟨6, 24, [5], start + max 13 (85 * d / 100), "High", "Testing"⟩,
     ⟨7, 12, [6], start + max 15 (9 * d / 10), "Medium", "Publishing"⟩,
     ⟨8, 16, [7], start + d, "High", "Marketing"⟩]
  | .event =>
    [⟨1, 8, [], start + max 1 (d / 6), "High", "Planning"⟩,
     ⟨2, 12, [1], start + max 2 (d / 4), "High", "Logistics"⟩,
     ⟨3, 16, [2], start + max 4 (d / 2), "High", "Logistics"⟩,
     ⟨4, 10, [1], start + max 3 (4 * d / 10), "Medium", "Communications"⟩,
     ⟨5, 8, [2, 3], start + max 6 (75 * d / 100), "High", "Planning"⟩,
     ⟨6, 12, [3, 4, 5], start + d, "High", "Execution"⟩]
  | .learning =>
    [⟨1, 12, [], start + max 2 (d / 5), "High", "Learning"⟩,
     ⟨2, 24, [1], start + max 6 (6 * d / 10), "High", "Learning"⟩,
     ⟨3, 20, [2], start + max 10 (8 * d / 10), "Medium", "Practice"⟩,
     ⟨4, 16, [3], start + d, "High", "Portfolio"⟩]
  | .research =>
    [⟨1, 20, [], start + max 2 (d / 4), "High", "Research"⟩,
     ⟨2, 12, [1], start + max 4 (d / 3), "High", "Planning"⟩,
     ⟨3, 24, [2], start + max 8 (65 * d / 100), "High", "Research"⟩,
     ⟨4, 20, [3], start + max 11 (85 * d / 100), "High", "Writing"⟩,
     ⟨5, 12, [4], start + d, "High", "Finalization"⟩]
  | .generic =>
    let num_tasks := max 4 (min 7 (d / 3))
    (List.range num_tasks).map (fun i =>
      ⟨i + 1,
       10 + (i % 3) * 6,
       if i > 0 then [i] else [],
       start + i * d / num_tasks,
       ["High", "High", "Medium", "High", "High", "Medium", "High"].getD (min i 6) "High",
       ["Planning", "Research", "Development", "Development", "Testing",
        "Finalization", "Completion"].getD (min i 6) "Completion"⟩)

/-- The Milestone Synthesizer part of `fallback_plan_generation`
(app.py lines 549–577): kickoff, two conditional intermediates, and
completion. -/
def fallback_milestones (start d : Nat) (tasks : List Task) : List Milestone :=
  ⟨"Project Kickoff & Planning Complete", start, []⟩ ::
    ((if tasks.length > 3 then
        [⟨"Initial Phase Complete", start + d / 3,
          (tasks.take (tasks.length / 3)).map Task.id⟩,
         ⟨"Development Phase Complete", start + d * 2 / 3,
          (tasks.take (tasks.length * 2 / 3)).map Task.id⟩]
      else []) ++
     [⟨"Project Completion & Delivery", start + d, tasks.map Task.id⟩])

/-- `fallback_plan_generation(goal)` with `datetime.now()` as the explicit
ordinal parameter `start` (`total_days = extract_timeframe(goal)`, tasks
selected by the `if/elif` keyword chain, i.e. `classify`). -/
def fallback_plan_generation (start : Nat) (goal : String) : Plan :=
  ⟨goal,
   toString (extract_timeframe goal) ++ " days",
   fallback_tasks start (extract_timeframe goal) (classify goal),
   ⟨start, start + extract_timeframe goal,
    fallback_milestones start (extract_timeframe goal)
      (fallback_tasks start (extract_timeframe goal) (classify goal))⟩⟩

/-! ## Overflow model for the fallback path

Python raises `OverflowError` when `timedelta(days=k)` is built with
`k > 999999999` or when `datetime + timedelta` leaves the representable
range (`datetime.max.toordinal() = 3652059`).  On the fallback path every
date is `start + off` for an offset drawn from the plan itself: the
timeline end (`total_days`, app.py line 229), each task deadline, and the
milestone dates (both at most `total_days`).  Every offset is at most
`max total_days 15` (15 is the largest clamp floor, in the Product
family), so given `total_days ≤ 999999999` each per-task `timedelta` is
also in range, and the computation succeeds exactly when the end date and
every task deadline stay within the ordinal range.  `Option` models the
exception. -/

/-- Largest day count accepted by `timedelta(days=...)`. -/
def TIMEDELTA_MAX_DAYS : Nat := 999999999

/-- `datetime.max.toordinal()`. -/
def DATETIME_MAX_ORDINAL : Nat := 3652059

/-- `fallback_plan_generation` with Python's `OverflowError` made
explicit: `none` exactly when one of the date constructions of the source
would raise. -/
def fallback_plan_generation? (start : Nat) (goal : String) : Option Plan :=
  let total_days := extract_timeframe goal
  if total_days ≤ TIMEDELTA_MAX_DAYS ∧ start + total_days ≤ DATETIME_MAX_ORDINAL then
    let p := fallback_plan_generation start goal
    if p.tasks.all (fun t => t.deadline ≤ DATETIME_MAX_ORDINAL) then some p
    else none
  else none

/-! ## External LLM Adapter (`generate_with_ollama`, app.py lines 118–196)

The outbound HTTP call is abstracted into an `OllamaOutcome`: either an
exception (connection failure, timeout, or a failure while decoding the
HTTP body — all caught by the same `except` at line 194) or a received
status code together with the free text of the `response` field.
`json.loads` is abstracted as a `parse` parameter returning `none` on
`JSONDecodeError`; since the adapter returns the parsed object unchanged,
its codomain is taken to be `Plan`. -/

/-- Outcome of the `ollama_requests.post` call made by
`generate_with_ollama`. -/
inductive OllamaOutcome where
  | exc
  | resp (status : Nat) (text : String)
deriving DecidableEq, Repr

/-- Python `str.find(c)` (index of first occurrence). -/
def strFind (c : Char) : List Char → Option Nat
  | [] => none
  | x :: t => if x == c then some 0 else (strFind c t).map (· + 1)

/-- Python `str.rfind(c)` (index of last occurrence). -/
def strRfind (c : Char) (l : List Char) : Option Nat :=
  (strFind c l.reverse).map (fun i => l.length - 1 - i)

/-- Lines 176–180 of the source: `json_start = find('{')`,
`json_end = rfind('}') + 1`; the substring is taken when
`json_start >= 0 and json_end > json_start` (with `rfind` returning -1,
hence `json_end = 0`, when `'}'` is absent). -/
def jsonRegion (text : List Char) : Option (List Char) :=
  let json_end := match strRfind '}' text with
    | some i => i + 1
    | none => 0
  match strFind '{' text with
  | some json_start =>
    if json_end > json_start then
      some ((text.drop json_start).take (json_end - json_start))
    else none
  | none => none

/-- `generate_with_ollama(goal)` as a function of the call outcome and the
JSON parser. -/
def generate_with_ollama (start : Nat) (goal : String) (out : OllamaOutcome)
    (parse : List Char → Option Plan) : Plan :=
  match out with
  | .exc => fallback_plan_generation start goal
  | .resp status text =>
    if status = 200 then
      match jsonRegion text.data with
      | some region =>
        match parse region with
        | some plan => plan
        | none => fallback_plan_generation start goal
      | none => fallback_plan_generation start goal
    else fallback_plan_generation start goal

/-- The failure disjunction of the adapter: exception, non-200 status, no
`{...}` region, or JSON parse failure of the region. -/
def ollamaFallbackCond (out : OllamaOutcome) (parse : List Char → Option Plan) : Prop :=
  out = .exc ∨
    ∃ status text, out = .resp status text ∧
      (status ≠ 200 ∨ jsonRegion text.data = none ∨
        ∃ region, jsonRegion text.data = some region ∧ parse region = none)

/-! ## HTTP surface: `generate_task_plan` and `/api/plan` (`create_plan`,
app.py lines 213–222 and 598–626) -/

/-- `generate_task_plan`: strategy selection fixed at initialization
(`self.llm_method`). -/
def generate_task_plan (start : Nat) (llm_method : String) (out : OllamaOutcome)
    (parse : List Char → Option Plan) (goal : String) : Plan :=
  if llm_method = "ollama" then generate_with_ollama start goal out parse
  else fallback_plan_generation start goal

/-- A row of the `task_plans` table as written by `save_plan`. -/
structure StoreRecord where
  goal : String
  plan : Plan
  llm_method : String
deriving DecidableEq, Repr

/-- `save_plan`: append to the store, returning the auto-incremented row
id. -/
def save_plan (store : List StoreRecord) (goal : String) (plan : Plan)
    (llm_method : String) : Nat × List StoreRecord :=
  (store.length + 1, store ++ [⟨goal, plan, llm_method⟩])

/-- Python `str.strip()` (whitespace from both ends). -/
def pyStrip (s : String) : String :=
  ⟨((s.data.dropWhile isPySpace).reverse.dropWhile isPySpace).reverse⟩

/-- Response of the `/api/plan` POST handler. -/
inductive ApiResponse where
  | badRequest (msg : String)
  | ok (plan : Plan) (plan_id : Nat) (llm_method : String)
deriving DecidableEq, Repr

/-- `create_plan`: `goal = data.get('goal', '').strip()`; an empty goal is
rejected with HTTP 400 before any generation or store write. -/
def create_plan (start : Nat) (llm_method : String) (out : OllamaOutcome)
    (parse : List Char → Option Plan) (goalField : Option String)
    (store : List StoreRecord) : ApiResponse × List StoreRecord :=
  let goal := pyStrip (goalField.getD "")
  if goal = "" then (.badRequest "Goal is required", store)
  else
    let plan := generate_task_plan start llm_method out parse goal
    let res := save_plan store goal plan llm_method
    (.ok plan res.1 llm_method, res.2)

/-! ## Helper lemmas -/

/-- `a * d / b ≤ d` whenever `a ≤ b > 0`: the fractional deadline offsets
never exceed the total duration. -/
lemma frac_le_self (a b d : Nat) (hab : a ≤ b) (hb : 0 < b) : a * d / b ≤ d := by
  calc a * d / b ≤ b * d / b := Nat.div_le_div_right (Nat.mul_le_mul_right d hab)
    _ = d := Nat.mul_div_cancel_left d hb

/-- Every deadline produced by the Plan Synthesizer lies in
`[start, start + max total_days 15]`: offsets are clamps
`max floor frac` with every floor at most 15 and every fraction at most
`total_days`, or the end date itself, or `i * d / num_tasks` in the
Generic family. -/
lemma fallback_tasks_deadline_bounds (start d : Nat) (fam : Family) :
    ∀ t ∈ fallback_tasks start d fam,
      start ≤ t.deadline ∧ t.deadline ≤ start + max d 15 := by
  cases fam
  case generic =>
    intro t ht
    simp only [fallback_tasks, List.mem_map, List.mem_range] at ht
    obtain ⟨i, hi, rfl⟩ := ht
    have hn : 4 ≤ max 4 (min 7 (d / 3)) := le_max_left _ _
    have hfrac : i * d / max 4 (min 7 (d / 3)) ≤ d :=
      frac_le_self i _ d (by omega) (by omega)
    dsimp only
    refine ⟨Nat.le_add_right _ _, Nat.add_le_add_left (le_trans hfrac (le_max_left d 15)) start⟩
  all_goals
    intro t ht
    simp only [fallback_tasks, List.mem_cons, List.not_mem_nil, or_false] at ht
    rcases ht with rfl | rfl | rfl | rfl | rfl | rfl | rfl | rfl <;> dsimp only <;> omega

/-- Dependency ids in every family's template are strictly below the
owning task's id. -/
lemma fallback_tasks_deps_lt (start d : Nat) (fam : Family) :
    ∀ t ∈ fallback_tasks start d fam, ∀ dep ∈ t.dependencies, dep < t.id := by
  cases fam
  case generic =>
    intro t ht
    simp only [fallback_tasks, List.mem_map, List.mem_range] at ht
    obtain ⟨i, hi, rfl⟩ := ht
    intro dep hdep
    dsimp only at hdep ⊢
    rcases Nat.eq_zero_or_pos i with hz | hpos
    · simp [hz] at hdep
    · rw [if_pos hpos] at hdep
      simp only [List.mem_singleton] at hdep
      omega
  all_goals
    intro t ht
    simp only [fallback_tasks, List.mem_cons, List.not_mem_nil, or_false] at ht
    rcases ht with rfl | rfl | rfl | rfl | rfl | rfl | rfl | rfl <;>
      intro dep hdep <;> simp at hdep ⊢ <;> omega

/-- Every family yields at least four tasks (8, 6, 4, 5, or
`max 4 (min 7 (d / 3))`). -/
lemma fallback_tasks_length (start d : Nat) (fam : Family) :
    4 ≤ (fallback_tasks start d fam).length := by
  cases fam
  case generic => simp [fallback_tasks]
  all_goals simp [fallback_tasks]

/-- With more than three tasks both intermediate milestones are emitted,
for four milestones in total. -/
lemma fallback_milestones_length (start d : Nat) (tasks : List Task)
    (h : 3 < tasks.length) : (fallback_milestones start d tasks).length = 4 := by
  simp [fallback_milestones, if_pos h]

/-- A shorter `take` of the same list is a sub-collection of a longer
one. -/
lemma take_subset_take {α : Type} (l : List α) {m n : Nat} (h : m ≤ n) :
    l.take m ⊆ l.take n := by
  have heq : l.take m = (l.take n).take m := by
    rw [List.take_take, Nat.min_eq_left h]
  rw [heq]
  exact List.take_subset _ _

/-- The milestone completed-task sets grow monotonically along the
sequence: `[] ⊆ first-third ⊆ first-two-thirds ⊆ all`. -/
lemma fallback_milestones_chain (start d : Nat) (tasks : List Task) :
    List.Chain' (fun a b : Milestone => a.tasks_completed ⊆ b.tasks_completed)
      (fallback_milestones start d tasks) := by
  unfold fallback_milestones
  by_cases h : tasks.length > 3
  · rw [if_pos h]
    simp only [List.cons_append, List.nil_append, List.chain'_cons, List.chain'_singleton,
      and_true]
    refine ⟨List.nil_subset _, ?_, ?_⟩
    · exact List.map_subset Task.id
        (take_subset_take tasks (Nat.div_le_div_right (by omega)))
    · exact List.map_subset Task.id (List.take_subset _ _)
  · rw [if_neg h]
    simp only [List.nil_append, List.chain'_cons, List.chain'_singleton, and_true]
    exact List.nil_subset _

/-- The first milestone is the kickoff: date `start`, nothing
completed. -/
lemma fallback_milestones_head (start d : Nat) (tasks : List Task) :
    (fallback_milestones start d tasks).head? =
      some ⟨"Project Kickoff & Planning Complete", start, []⟩ := rfl

/-- The last milestone is the completion milestone: date `start + d`, all
task ids completed. -/
lemma fallback_milestones_getLast (start d : Nat) (tasks : List Task) :
    (fallback_milestones start d tasks).getLast? =
      some ⟨"Project Completion & Delivery", start + d, tasks.map Task.id⟩ := by
  unfold fallback_milestones
  rw [← List.cons_append, List.getLast?_concat]

/-- In the four named families the template's final task carries the
plan's end date (`deadline = end_date.strftime(...)` in the source). -/
lemma fallback_tasks_getLast_named (start d : Nat) (fam : Family)
    (h : fam ≠ Family.generic) :
    (fallback_tasks start d fam).getLast?.map Task.deadline = some (start + d) := by
  cases fam
  case product => rfl
  case event => rfl
  case learning => rfl
  case research => rfl
  case generic => exact absurd rfl h

/-- In the Generic family the final task (index `num_tasks - 1`) carries
`start + int((num_tasks-1) * task_duration)`, not the end date. -/
lemma fallback_tasks_getLast_generic (start d : Nat) :
    (fallback_tasks start d Family.generic).getLast?.map Task.deadline =
      some (start + (max 4 (min 7 (d / 3)) - 1) * d / max 4 (min 7 (d / 3))) := by
  have hlt : max 4 (min 7 (d / 3)) - 1 < max 4 (min 7 (d / 3)) := by omega
  simp only [fallback_tasks, List.getLast?_eq_getElem?, List.length_map, List.length_range,
    List.getElem?_map, List.getElem?_range hlt, Option.map_some']

/-! ## The claims -/

/-- C4: `extract_timeframe` tests the lower-cased goal against the three
patterns in the fixed priority order weeks, days, months: the first
matching pattern alone decides the result (`N*7`, `N`, `N*30`
respectively), with default 14 when none matches; in particular
"2 weeks 3 days" yields 14 from the weeks match. -/
theorem c4_extract_timeframe_priority_order (goal : String) :
    (∀ n, findNumWord "week".data (lowerChars goal) = some n →
      extract_timeframe goal = n * 7)
    ∧ (findNumWord "week".data (lowerChars goal) = none →
        ∀ n, findNumWord "day".data (lowerChars goal) = some n →
          extract_timeframe goal = n)
    ∧ (findNumWord "week".data (lowerChars goal) = none →
        findNumWord "day".data (lowerChars goal) = none →
          ∀ n, findNumWord "month".data (lowerChars goal) = some n →
            extract_timeframe goal = n * 30)
    ∧ (findNumWord "week".data (lowerChars goal) = none →
        findNumWord "day".data (lowerChars goal) = none →
          findNumWord "month".data (lowerChars goal) = none →
            extract_timeframe goal = 14)
    ∧ extract_timeframe "2 weeks 3 days" = 14 := by
  refine ⟨?_, ?_, ?_, ?_, by decide⟩
  · intro n h
    simp [extract_timeframe, firstPatternMatch, time_patterns, h]
  · intro hw n h
    simp [extract_timeframe, firstPatternMatch, time_patterns, hw, h]
  · intro hw hd n h
    simp [extract_timeframe, firstPatternMatch, time_patterns, hw, hd, h]
  · intro hw hd hm
    simp [extract_timeframe, firstPatternMatch, time_patterns, hw, hd, hm]

/-- Witness for C4 at a concrete goal: "finish in 3 weeks" gives 21. -/
theorem c4_extract_timeframe_priority_order_witness :
    extract_timeframe "finish in 3 weeks" = 21 :=
  (c4_extract_timeframe_priority_order "finish in 3 weeks").1 3 (by decide)

/-- C5 (counterexample): the claim "every goal containing both `study`
and `research` is classified Learning/Education" fails when an
earlier-priority keyword is also present: "app study research" contains
both words but classifies as Product/App. -/
theorem c5_counterexample :
    strContains (lowerChars "app study research") "study".data = true
    ∧ strContains (lowerChars "app study research") "research".data = true
    ∧ classify "app study research" ≠ Family.learning := by
  decide

/-- C5 (amended): exactly one family is selected, by the fixed priority
order Product, Event, Learning, Research, Generic; a goal containing
both `study` and `research` and no Product or Event keyword classifies
as Learning/Education. -/
theorem c5_classify_priority_order (goal : String)
    (hs : strContains (lowerChars goal) "study".data = true)
    (hr : strContains (lowerChars goal) "research".data = true)
    (hp : containsAny (lowerChars goal) product_keywords = false)
    (he : containsAny (lowerChars goal) event_keywords = false) :
    classify goal = Family.learning := by
  have hl : containsAny (lowerChars goal) learning_keywords = true := by
    apply List.any_eq_true.mpr
    exact ⟨"study".data, by simp [learning_keywords], hs⟩
  simp [classify, hp, he, hl]

/-- Witness for C5 at a concrete goal. -/
theorem c5_classify_priority_order_witness :
    classify "study research" = Family.learning :=
  c5_classify_priority_order "study research" (by decide) (by decide) (by decide) (by decide)

/-- C6: in every generated plan, every dependency id is strictly smaller
than the owning task's id, in all five template families. -/
theorem c6_dependencies_strictly_smaller (start : Nat) (goal : String) :
    ∀ t ∈ (fallback_plan_generation start goal).tasks,
      ∀ dep ∈ t.dependencies, dep < t.id :=
  fallback_tasks_deps_lt start (extract_timeframe goal) (classify goal)

/-- Witness for C6: the second Generic task of the plan for "x" depends
on task 1 and has id 2. -/
theorem c6_dependencies_strictly_smaller_witness :
    (⟨2, 16, [1], 3, "High", "Research"⟩ : Task) ∈ (fallback_plan_generation 0 "x").tasks
    ∧ (1 : Nat) ∈ [1]
    ∧ (1 : Nat) < 2 :=
  ⟨by decide, by decide,
    c6_dependencies_strictly_smaller 0 "x" ⟨2, 16, [1], 3, "High", "Research"⟩
      (by decide) 1 (by decide)⟩

/-- C7: milestone completed-task sets grow monotonically along the
sequence, from the empty set at kickoff to the full id set at completion,
with the two intermediate milestones (emitted exactly when the plan has
more than 3 tasks) carrying the first `len/3` and first `len*2/3` tasks
by position. -/
theorem c7_milestone_sets_monotone (start : Nat) (goal : String) :
    List.Chain' (fun a b : Milestone => a.tasks_completed ⊆ b.tasks_completed)
      (fallback_plan_generation start goal).timeline.milestones
    ∧ (fallback_plan_generation start goal).timeline.milestones.head?.map
        Milestone.tasks_completed = some []
    ∧ (fallback_plan_generation start goal).timeline.milestones.getLast?.map
        Milestone.tasks_completed =
        some ((fallback_plan_generation start goal).tasks.map Task.id)
    ∧ (fallback_plan_generation start goal).timeline.milestones =
        ⟨"Project Kickoff & Planning Complete", start, []⟩ ::
          ((if (fallback_plan_generation start goal).tasks.length > 3 then
              [⟨"Initial Phase Complete", start + extract_timeframe goal / 3,
                ((fallback_plan_generation start goal).tasks.take
                  ((fallback_plan_generation start goal).tasks.length / 3)).map Task.id⟩,
               ⟨"Development Phase Complete", start + extract_timeframe goal * 2 / 3,
                ((fallback_plan_generation start goal).tasks.take
                  ((fallback_plan_generation start goal).tasks.length * 2 / 3)).map Task.id⟩]
            else []) ++
           [⟨"Project Completion & Delivery", start + extract_timeframe goal,
             (fallback_plan_generation start goal).tasks.map Task.id⟩]) := by
  refine ⟨fallback_milestones_chain start (extract_timeframe goal) _, rfl, ?_, rfl⟩
  simpa using congrArg (Option.map Milestone.tasks_completed)
    (fallback_milestones_getLast start (extract_timeframe goal)
      (fallback_tasks start (extract_timeframe goal) (classify goal)))

/-- C10: every family yields at least 4 tasks, so the `len(tasks) > 3`
branch always fires and every plan has exactly 4 milestones. -/
theorem c10_always_four_milestones (start : Nat) (goal : String) :
    4 ≤ (fallback_plan_generation start goal).tasks.length
    ∧ (fallback_plan_generation start goal).timeline.milestones.length = 4 := by
  have h := fallback_tasks_length start (extract_timeframe goal) (classify goal)
  exact ⟨h, fallback_milestones_length start (extract_timeframe goal) _ (by omega)⟩

/-- C1 (counterexample): the claim "every deadline falls within
`[start_date, end_date]`" fails for short timeframes: for
"launch app in 2 days" (`total_days = 2`) task 3's clamp
`max(4, total_days // 3)` puts its deadline 4 days after start, past the
end date. -/
theorem c1_counterexample :
    ∃ t ∈ (fallback_plan_generation 0 "launch app in 2 days").tasks,
      (fallback_plan_generation 0 "launch app in 2 days").timeline.end_date < t.deadline := by
  decide

/-- C1 (amended): whenever the extracted timeframe is at least 15 days
(the largest clamp floor), every task deadline falls within
`[start_date, end_date]` inclusive. -/
theorem c1_deadlines_within_timeline (start : Nat) (goal : String)
    (h : 15 ≤ extract_timeframe goal) :
    ∀ t ∈ (fallback_plan_generation start goal).tasks,
      (fallback_plan_generation start goal).timeline.start_date ≤ t.deadline
      ∧ t.deadline ≤ (fallback_plan_generation start goal).timeline.end_date := by
  intro t ht
  have hb := fallback_tasks_deadline_bounds start (extract_timeframe goal) (classify goal) t ht
  refine ⟨hb.1, ?_⟩
  show t.deadline ≤ start + extract_timeframe goal
  have h2 := hb.2
  omega

/-- Witness for C1 at "launch app in 3 weeks" (`total_days = 21`,
Product family, first task deadline `start + max(1, 21//7) = 3`). -/
theorem c1_deadlines_within_timeline_witness :
    15 ≤ extract_timeframe "launch app in 3 weeks"
    ∧ ((0 : Nat) ≤ 3 ∧ (3 : Nat) ≤ 21) :=
  ⟨by decide,
    c1_deadlines_within_timeline 0 "launch app in 3 weeks" (by decide)
      ⟨1, 16, [], 3, "High", "Research"⟩ (by decide)⟩

/-- C2 (counterexample): in the Generic family the last task's deadline
is `start + int((num_tasks-1) * task_duration)`, not `end_date`: for the
keyword-free goal "x" (`total_days = 14`, 4 tasks) it is `start + 10`
while `end_date = start + 14`. -/
theorem c2_counterexample :
    (fallback_plan_generation 0 "x").tasks.getLast?.map Task.deadline ≠
      some (fallback_plan_generation 0 "x").timeline.end_date := by
  decide

/-- C2 (amended): the first milestone's date equals `start_date` for
every family; the last task's deadline equals `end_date` for the four
named families, while for the Generic family it equals
`start + (num_tasks-1) * total_days / num_tasks`. -/
theorem c2_last_task_and_first_milestone (start : Nat) (goal : String) :
    (classify goal ≠ Family.generic →
      (fallback_plan_generation start goal).tasks.getLast?.map Task.deadline =
        some (fallback_plan_generation start goal).timeline.end_date)
    ∧ (fallback_plan_generation start goal).timeline.milestones.head?.map Milestone.date =
        some (fallback_plan_generation start goal).timeline.start_date
    ∧ (classify goal = Family.generic →
      (fallback_plan_generation start goal).tasks.getLast?.map Task.deadline =
        some (start +
          (max 4 (min 7 (extract_timeframe goal / 3)) - 1) * extract_timeframe goal /
            max 4 (min 7 (extract_timeframe goal / 3)))) := by
  refine ⟨fun h => fallback_tasks_getLast_named start (extract_timeframe goal) (classify goal) h,
    rfl, fun h => ?_⟩
  show (fallback_tasks start (extract_timeframe goal) (classify goal)).getLast?.map
    Task.deadline = _
  rw [h]
  exact fallback_tasks_getLast_generic start (extract_timeframe goal)

/-- Witness for C2 at "launch app in 3 weeks" (Product family). -/
theorem c2_last_task_and_first_milestone_witness :
    classify "launch app in 3 weeks" ≠ Family.generic
    ∧ (fallback_plan_generation 0 "launch app in 3 weeks").tasks.getLast?.map Task.deadline =
        some (fallback_plan_generation 0 "launch app in 3 weeks").timeline.end_date :=
  ⟨by decide, (c2_last_task_and_first_milestone 0 "launch app in 3 weeks").1 (by decide)⟩

/-- C3 (counterexample): the fallback path can raise: for
"finish in 1000000000 days" the extracted timeframe exceeds
`timedelta`'s maximum of 999999999 days and
`start_date + timedelta(days=total_days)` raises `OverflowError`, for any
start date. -/
theorem c3_counterexample :
    fallback_plan_generation? 739000 "finish in 1000000000 days" = none := by
  decide

/-- C3 (amended): the fallback path terminates normally (no exception)
whenever the extracted timeframe fits in a `timedelta` and the start date
is far enough from `datetime.max` (by `max total_days 15` days, 15 being
the largest clamp floor). -/
theorem c3_fallback_no_exception (start : Nat) (goal : String)
    (h1 : extract_timeframe goal ≤ TIMEDELTA_MAX_DAYS)
    (h2 : start + max (extract_timeframe goal) 15 ≤ DATETIME_MAX_ORDINAL) :
    fallback_plan_generation? start goal = some (fallback_plan_generation start goal) := by
  have hb := fallback_tasks_deadline_bounds start (extract_timeframe goal) (classify goal)
  simp only [TIMEDELTA_MAX_DAYS, DATETIME_MAX_ORDINAL] at h1 h2
  unfold fallback_plan_generation?
  rw [if_pos ⟨by simp only [TIMEDELTA_MAX_DAYS]; omega,
    by simp only [DATETIME_MAX_ORDINAL]; omega⟩]
  rw [if_pos]
  apply List.all_eq_true.mpr
  intro t ht
  have h3 := (hb t ht).2
  simp only [DATETIME_MAX_ORDINAL]
  exact decide_eq_true (by omega)

/-- Witness for C3 at "x" (`total_days = 14`) starting from ordinal
738000 (a contemporary date). -/
theorem c3_fallback_no_exception_witness :
    extract_timeframe "x" ≤ TIMEDELTA_MAX_DAYS
    ∧ 738000 + max (extract_timeframe "x") 15 ≤ DATETIME_MAX_ORDINAL
    ∧ fallback_plan_generation? 738000 "x" = some (fallback_plan_generation 738000 "x") :=
  ⟨by decide, by decide, c3_fallback_no_exception 738000 "x" (by decide) (by decide)⟩

/-- C8: the Ollama adapter returns the fallback plan exactly on the
failure conditions (exception, non-200 status, no `{...}` region, JSON
parse failure of the region), and otherwise returns the parsed object
unchanged. -/
theorem c8_ollama_fallback_contract (start : Nat) (goal : String) (out : OllamaOutcome)
    (parse : List Char → Option Plan) :
    (ollamaFallbackCond out parse →
      generate_with_ollama start goal out parse = fallback_plan_generation start goal)
    ∧ (∀ status text region plan, out = OllamaOutcome.resp status text → status = 200 →
        jsonRegion text.data = some region → parse region = some plan →
        generate_with_ollama start goal out parse = plan) := by
  constructor
  · rintro (rfl | ⟨status, text, rfl, hfail⟩)
    · rfl
    · rcases hfail with hne | hnone | ⟨region, hreg, hparse⟩
      · simp [generate_with_ollama, hne]
      · by_cases h200 : status = 200
        · simp [generate_with_ollama, h200, hnone]
        · simp [generate_with_ollama, h200]
      · by_cases h200 : status = 200
        · simp [generate_with_ollama, h200, hreg, hparse]
        · simp [generate_with_ollama, h200]
  · intro status text region plan hout h200 hreg hparse
    subst hout
    simp [generate_with_ollama, h200, hreg, hparse]

/-- Witness for C8: a 500 status falls back, for any parser. -/
theorem c8_ollama_fallback_contract_witness :
    generate_with_ollama 0 "g" (OllamaOutcome.resp 500 "oops") (fun _ => none) =
      fallback_plan_generation 0 "g" :=
  (c8_ollama_fallback_contract 0 "g" (OllamaOutcome.resp 500 "oops") (fun _ => none)).1
    (Or.inr ⟨500, "oops", rfl, Or.inl (by decide)⟩)

/-- C9: an empty or whitespace-only goal (after `strip()`) makes the
create-plan endpoint answer with the 400 error and leave the store
untouched: no plan is generated and nothing is written. -/
theorem c9_empty_goal_rejected (start : Nat) (llm_method : String) (out : OllamaOutcome)
    (parse : List Char → Option Plan) (goalField : Option String)
    (store : List StoreRecord) (h : pyStrip (goalField.getD "") = "") :
    create_plan start llm_method out parse goalField store =
      (ApiResponse.badRequest "Goal is required", store) := by
  unfold create_plan
  rw [h]
  rfl

/-- Witness for C9 at a whitespace-only goal field. -/
theorem c9_empty_goal_rejected_witness :
    pyStrip ((some "   ").getD "") = ""
    ∧ create_plan 0 "fallback" OllamaOutcome.exc (fun _ => none) (some "   ") [] =
        (ApiResponse.badRequest "Goal is required", []) :=
  ⟨by decide,
    c9_empty_goal_rejected 0 "fallback" OllamaOutcome.exc (fun _ => none) (some "   ") []
      (by decide)⟩

end SmartTaskPlanner
